import Mathlib

/-!
Shallow embedding of the `RuuviTagMonitoringStack` infrastructure stack
(`src/RuuviTagMonitoring/lib/ruuvi_tag_monitoring-stack.ts`).

The stack constructor is a pure function from a configuration record
(`thingName`, `iotTopicPrefix`, `cloudWatchMetricNameSpace`, `ruuviTagId`)
plus ambient context (stack name, region, account) to a fixed set of
resource declarations.  Each declaration made by the constructor is
modelled by a typed structure mirroring the construct's properties; the
function `synth` builds them in the constructor's order.  Values that the
infrastructure library resolves only at deploy time (attribute references
between resources) are modelled symbolically by `CfnValue`.
-/

namespace RuuviTag

/-- Ambient deployment context supplied by the caller (`this.region`,
`this.account` in the source). -/
structure StackEnv where
  region : String
  account : String
deriving DecidableEq, Repr

/-- The configuration record `RuuviTagMonitoringStackProps` (the four
required string fields; the `cdk.StackProps` part is carried by
`StackEnv`). -/
structure RuuviTagMonitoringStackProps where
  thingName : String
  iotTopicPrefix : String
  cloudWatchMetricNameSpace : String
  ruuviTagId : String
deriving DecidableEq, Repr

/-- A value appearing in a resource declaration: either a plain string
(possibly built by interpolation of the inputs) or a deploy-time
reference to another resource's attribute or identifier. -/
inductive CfnValue where
  | lit (s : String)
  | getAtt (logicalId : String) (attr : String)
  | ref (logicalId : String)
deriving DecidableEq, Repr

/-- Logical ids of the resources a value refers to. -/
def CfnValue.refs : CfnValue → List String
  | .lit _ => []
  | .getAtt i _ => [i]
  | .ref i => [i]

/-- A string in the raw policy JSON: a literal, or a literal with a
deploy-time `Ref` spliced in (`pre ++ Ref(logicalId) ++ post`). -/
inductive JsonStr where
  | lit (s : String)
  | withRef (pre : String) (logicalId : String) (post : String)
deriving DecidableEq, Repr

def JsonStr.refs : JsonStr → List String
  | .lit _ => []
  | .withRef _ i _ => [i]

/-- `iot.CfnThing` -/
structure CfnThing where
  logicalId : String
  thingName : String
deriving DecidableEq, Repr

/-- `cr.PhysicalResourceId.fromResponse(...)` -/
inductive PhysicalResourceId where
  | fromResponse (responsePath : String)
deriving DecidableEq, Repr

/-- A parameter value of an SDK call made by the custom resource. -/
inductive SdkParamValue where
  | bool (b : Bool)
  | physicalResourceIdReference
deriving DecidableEq, Repr

/-- One SDK call description (`onCreate` / `onDelete`). -/
structure SdkCall where
  service : String
  action : String
  parameters : List (String × SdkParamValue)
  physicalResourceId : Option PhysicalResourceId
  outputPaths : Option (List String)
deriving DecidableEq, Repr

/-- `cr.AwsCustomResource` (the credential resource).  The log retention
and SDK-call policy are recorded as the source's enum choices. -/
structure AwsCustomResource where
  logicalId : String
  functionName : String
  onCreate : SdkCall
  onDelete : SdkCall
  logRetention : String
  policyResources : String
deriving DecidableEq, Repr

/-- `getResponseField` on a custom resource produces a deploy-time
attribute reference to that resource. -/
def AwsCustomResource.getResponseField (r : AwsCustomResource)
    (field : String) : CfnValue :=
  .getAtt r.logicalId field

/-- `secretsmanager.Secret` with a `secretObjectValue` map. -/
structure Secret where
  logicalId : String
  secretObjectValue : List (String × CfnValue)
deriving DecidableEq, Repr

/-- `iot.CfnThingPrincipalAttachment`; `dependsOn` records the explicit
edges added with `addDependency`. -/
structure CfnThingPrincipalAttachment where
  logicalId : String
  principal : CfnValue
  thingName : String
  dependsOn : List String
deriving DecidableEq, Repr

/-- One statement of the raw IoT policy document. -/
structure PolicyStatement where
  effect : String
  actions : List String
  resources : List JsonStr
deriving DecidableEq, Repr

/-- `iot.CfnPolicy` -/
structure CfnPolicy where
  logicalId : String
  policyName : String
  version : String
  statements : List PolicyStatement
deriving DecidableEq, Repr

/-- `iot.CfnPolicyPrincipalAttachment` -/
structure CfnPolicyPrincipalAttachment where
  logicalId : String
  principal : CfnValue
  policyName : String
deriving DecidableEq, Repr

/-- `logs.LogGroup` (declared with no explicit props). -/
structure LogGroup where
  logicalId : String
deriving DecidableEq, Repr

def LogGroup.logGroupName (g : LogGroup) : CfnValue := .ref g.logicalId

/-- One IAM policy statement (inline or granted). -/
structure IamPolicyStatement where
  actions : List String
  resources : List CfnValue
deriving DecidableEq, Repr

/-- `iam.Role`; `grantedStatements` records the permissions added to the
role by `iotRuleErrorLog.grantWrite(iotRuleRole)`. -/
structure Role where
  logicalId : String
  assumedBy : String
  inlinePolicies : List (String × List IamPolicyStatement)
  grantedStatements : List IamPolicyStatement
deriving DecidableEq, Repr

def Role.roleArn (r : Role) : CfnValue := .getAtt r.logicalId "Arn"

/-- A `cloudwatchMetric` action of the topic rule. -/
structure CloudwatchMetricAction where
  metricName : String
  metricNamespace : String
  metricUnit : String
  metricValue : String
  roleArn : CfnValue
deriving DecidableEq, Repr

/-- The `cloudwatchLogs` error action of the topic rule. -/
structure CloudwatchLogsErrorAction where
  logGroupName : CfnValue
  roleArn : CfnValue
deriving DecidableEq, Repr

/-- `topicRulePayload` of `iot.CfnTopicRule`. -/
structure TopicRulePayload where
  actions : List CloudwatchMetricAction
  awsIotSqlVersion : String
  sql : String
  ruleDisabled : Bool
  errorAction : CloudwatchLogsErrorAction
deriving DecidableEq, Repr

/-- `iot.CfnTopicRule`; `dependsOn` records explicit `addDependency`
edges (the source adds none to the rule). -/
structure CfnTopicRule where
  logicalId : String
  ruleName : String
  topicRulePayload : TopicRulePayload
  dependsOn : List String
deriving DecidableEq, Repr

/-- `cw.Metric` of the dashboard widget. -/
structure Metric where
  metricNamespace : String
  metricName : String
  statistic : String
  periodMinutes : Nat
deriving DecidableEq, Repr

/-- A horizontal band drawn on the widget (`leftAnnotations` entries). -/
structure HorizontalBand where
  value : Nat
  color : String
  fill : String
  label : String
deriving DecidableEq, Repr

/-- `leftYAxis` properties. -/
structure YAxisProps where
  max : Nat
  min : Nat
  showUnits : Bool
deriving DecidableEq, Repr

/-- `cw.GraphWidget`.  The source supplies only `left` metrics; `right`
is the library's empty default. -/
structure GraphWidget where
  left : List Metric
  right : List Metric
  leftBands : List HorizontalBand
  leftYAxis : YAxisProps
  legendPosition : String
  region : String
  title : String
  width : Nat
  height : Nat
deriving DecidableEq, Repr

/-- `cw.Dashboard` -/
structure Dashboard where
  logicalId : String
  dashboardName : String
  start : String
  widgets : List (List GraphWidget)
deriving DecidableEq, Repr

/-- The synthesized stack: every construct declared by the constructor of
`RuuviTagMonitoringStack`, in its declaration order. -/
structure RuuviTagMonitoringStack where
  stackName : String
  env : StackEnv
  iotThing : CfnThing
  iotThingKeysAndCert : AwsCustomResource
  iotThingKeysAndCertSecret : Secret
  iotThingPrincipalAttachment : CfnThingPrincipalAttachment
  iotThingPolicy : CfnPolicy
  iotThingPolicyPrincipalAttachment : CfnPolicyPrincipalAttachment
  iotRuleErrorLog : LogGroup
  iotRuleRole : Role
  iotRule : CfnTopicRule
  dashboard : Dashboard
deriving DecidableEq, Repr

/-- The constructor of `RuuviTagMonitoringStack`, transcribed declaration
by declaration.  `stackName` is the stack id supplied by the caller;
`env` the ambient account/region context. -/
def synth (stackName : String) (env : StackEnv)
    (props : RuuviTagMonitoringStackProps) : RuuviTagMonitoringStack :=
  let iotThing : CfnThing :=
    { logicalId := props.thingName
      thingName := props.thingName }
  let iotThingKeysAndCert : AwsCustomResource :=
    { logicalId := "IotThingKeysAndCert"
      functionName := stackName ++ "CreateIotThingKeysAndCert"
      onCreate :=
        { service := "@aws-sdk/client-iot"
          action := "CreateKeysAndCertificateCommand"
          parameters := [("setAsActive", .bool true)]
          physicalResourceId := some (.fromResponse "certificateId")
          outputPaths := some
            ["certificateArn", "certificatePem", "keyPair.PrivateKey"] }
      onDelete :=
        { service := "@aws-sdk/client-iot"
          action := "DeleteCertificateCommand"
          parameters := [("certificateId", .physicalResourceIdReference)]
          physicalResourceId := none
          outputPaths := none }
      logRetention := "SIX_MONTHS"
      policyResources := "ANY_RESOURCE" }
  let iotThingKeysAndCertSecret : Secret :=
    { logicalId := "IotThingKeysAndCertSecret"
      secretObjectValue :=
        [("certificatePem",
            iotThingKeysAndCert.getResponseField "certificatePem"),
         ("privateKey",
            iotThingKeysAndCert.getResponseField "keyPair.PrivateKey")] }
  let iotThingPrincipalAttachment : CfnThingPrincipalAttachment :=
    { logicalId := "IotThingPrincipalAttachment"
      principal := iotThingKeysAndCert.getResponseField "certificateArn"
      thingName := props.thingName
      dependsOn := [iotThing.logicalId] }
  let iotThingPolicy : CfnPolicy :=
    { logicalId := props.thingName ++ "Policy"
      policyName := props.thingName ++ "Policy"
      version := "2012-10-17"
      statements :=
        [{ effect := "Allow"
           actions := ["iot:Publish"]
           resources :=
             [.lit ("arn:aws:iot:" ++ env.region ++ ":" ++ env.account
                ++ ":topic/"
                ++ RuuviTagMonitoringStackProps.iotTopicPrefix props
                ++ "/*")] },
         { effect := "Allow"
           actions := ["iot:Connect"]
           resources :=
             [.withRef ("arn:aws:iot:" ++ env.region ++ ":" ++ env.account
                ++ ":client/") iotThing.logicalId ""] }] }
  let iotThingPolicyPrincipalAttachment : CfnPolicyPrincipalAttachment :=
    { logicalId := "IotThingPolicyPrincipalAttachment"
      principal := iotThingKeysAndCert.getResponseField "certificateArn"
      policyName := iotThingPolicy.policyName }
  let iotRuleErrorLog : LogGroup :=
    { logicalId := "IotRuleErrorLog" }
  let iotRuleRole : Role :=
    { logicalId := "IotRuleRole"
      assumedBy := "iot.amazonaws.com"
      inlinePolicies :=
        [("putMetricsPolicy",
          [{ actions := ["cloudwatch:PutMetricData"]
             resources := [.lit "*"] }])]
      grantedStatements :=
        [{ actions := ["logs:CreateLogStream", "logs:PutLogEvents"]
           resources := [.getAtt iotRuleErrorLog.logicalId "Arn"] }] }
  let iotRule : CfnTopicRule :=
    { logicalId := "IotRule_" ++ props.ruuviTagId
      ruleName := "RuuviTagEvents_" ++ props.ruuviTagId
      topicRulePayload :=
        { actions :=
            [{ metricName := "Temperature"
               metricNamespace := props.cloudWatchMetricNameSpace ++ "/"
                 ++ props.ruuviTagId
               metricUnit := "None"
               metricValue := "${temperature}"
               roleArn := iotRuleRole.roleArn },
             { metricName := "Humidity"
               metricNamespace := props.cloudWatchMetricNameSpace ++ "/"
                 ++ props.ruuviTagId
               metricUnit := "None"
               metricValue := "${humidity}"
               roleArn := iotRuleRole.roleArn }]
          awsIotSqlVersion := "2016-03-23"
          sql := "SELECT temperature,humidity FROM \x27"
            ++ RuuviTagMonitoringStackProps.iotTopicPrefix props
            ++ "/" ++ props.ruuviTagId ++ "\x27"
          ruleDisabled := false
          errorAction :=
            { logGroupName := iotRuleErrorLog.logGroupName
              roleArn := iotRuleRole.roleArn } }
      dependsOn := [] }
  let dashboard : Dashboard :=
    { logicalId := "Dashboard"
      dashboardName := props.thingName ++ "-Dashboard"
      start := "-P7D"
      widgets :=
        [[{ left :=
              [{ metricNamespace := props.cloudWatchMetricNameSpace ++ "/"
                   ++ props.ruuviTagId
                 metricName := "Humidity"
                 statistic := "Average"
                 periodMinutes := 5 }]
            right := []
            leftBands :=
              [{ value := 53, color := "#ff0000", fill := "BELOW",
                 label := "Low" },
               { value := 75, color := "#ff0000", fill := "ABOVE",
                 label := "High" }]
            leftYAxis := { max := 85, min := 45, showUnits := false }
            legendPosition := "HIDDEN"
            region := env.region
            title := "Kosteus (%)"
            width := 6
            height := 6 }]] }
  { stackName := stackName
    env := env
    iotThing := iotThing
    iotThingKeysAndCert := iotThingKeysAndCert
    iotThingKeysAndCertSecret := iotThingKeysAndCertSecret
    iotThingPrincipalAttachment := iotThingPrincipalAttachment
    iotThingPolicy := iotThingPolicy
    iotThingPolicyPrincipalAttachment := iotThingPolicyPrincipalAttachment
    iotRuleErrorLog := iotRuleErrorLog
    iotRuleRole := iotRuleRole
    iotRule := iotRule
    dashboard := dashboard }

/-- The kind of each declared resource, in the spec's vocabulary. -/
inductive ResourceKind where
  | deviceIdentity
  | credential
  | secret
  | identityAttachment
  | accessPolicy
  | policyAttachment
  | errorLogSink
  | executionRole
  | routingRule
  | dashboard
deriving DecidableEq, Repr

/-- A node of the synthesized resource graph: its logical id, kind, the
explicit dependency edges added with `addDependency`, and the implicit
reference edges arising from deploy-time attribute references in its
declaration. -/
structure ResourceNode where
  logicalId : String
  kind : ResourceKind
  explicitDependsOn : List String
  references : List String
deriving DecidableEq, Repr

def Secret.references (s : Secret) : List String :=
  (s.secretObjectValue.map (fun p => p.2.refs)).flatten

def CfnPolicy.references (p : CfnPolicy) : List String :=
  (p.statements.map (fun st => (st.resources.map JsonStr.refs).flatten)).flatten

def Role.references (r : Role) : List String :=
  ((r.inlinePolicies.map
      (fun p => (p.2.map
        (fun st => (st.resources.map CfnValue.refs).flatten)).flatten)).flatten)
    ++ ((r.grantedStatements.map
      (fun st => (st.resources.map CfnValue.refs).flatten)).flatten)

def CfnTopicRule.references (r : CfnTopicRule) : List String :=
  (r.topicRulePayload.actions.map (fun a => a.roleArn.refs)).flatten
    ++ r.topicRulePayload.errorAction.logGroupName.refs
    ++ r.topicRulePayload.errorAction.roleArn.refs

/-- The synthesized graph: one node per declaration, in declaration
order. -/
def RuuviTagMonitoringStack.resources (s : RuuviTagMonitoringStack) :
    List ResourceNode :=
  [{ logicalId := s.iotThing.logicalId
     kind := .deviceIdentity
     explicitDependsOn := []
     references := [] },
   { logicalId := s.iotThingKeysAndCert.logicalId
     kind := .credential
     explicitDependsOn := []
     references := [] },
   { logicalId := s.iotThingKeysAndCertSecret.logicalId
     kind := .secret
     explicitDependsOn := []
     references := s.iotThingKeysAndCertSecret.references },
   { logicalId := s.iotThingPrincipalAttachment.logicalId
     kind := .identityAttachment
     explicitDependsOn := s.iotThingPrincipalAttachment.dependsOn
     references := s.iotThingPrincipalAttachment.principal.refs },
   { logicalId := s.iotThingPolicy.logicalId
     kind := .accessPolicy
     explicitDependsOn := []
     references := s.iotThingPolicy.references },
   { logicalId := s.iotThingPolicyPrincipalAttachment.logicalId
     kind := .policyAttachment
     explicitDependsOn := []
     references := s.iotThingPolicyPrincipalAttachment.principal.refs },
   { logicalId := s.iotRuleErrorLog.logicalId
     kind := .errorLogSink
     explicitDependsOn := []
     references := [] },
   { logicalId := s.iotRuleRole.logicalId
     kind := .executionRole
     explicitDependsOn := []
     references := s.iotRuleRole.references },
   { logicalId := s.iotRule.logicalId
     kind := .routingRule
     explicitDependsOn := s.iotRule.dependsOn
     references := s.iotRule.references },
   { logicalId := s.dashboard.logicalId
     kind := .dashboard
     explicitDependsOn := []
     references := [] }]

/-- Number of declared resources of a given kind. -/
def countKind (s : RuuviTagMonitoringStack) (k : ResourceKind) : Nat :=
  s.resources.countP (fun r => r.kind == k)

/-- All metric names rendered by the dashboard's widgets. -/
def Dashboard.metricNames (d : Dashboard) : List String :=
  ((d.widgets.flatten.map
    (fun w => (w.left ++ w.right).map (fun m => m.metricName))).flatten)

/-- The concrete configuration the repository deploys
(`bin` entry point): thing `RaspberryPi`, topic prefix `ruuvitag`,
namespace `RuuviTag`, tag id `f3d619998f38`, region `eu-north-1`. -/
def exProps : RuuviTagMonitoringStackProps :=
  { thingName := "RaspberryPi"
    iotTopicPrefix := "ruuvitag"
    cloudWatchMetricNameSpace := "RuuviTag"
    ruuviTagId := "f3d619998f38" }

def exEnv : StackEnv := { region := "eu-north-1", account := "123456789012" }

/-- C1 (counterexample): at the repository's concrete deployment
configuration, the synthesized graph contains ten resource declarations,
not nine: the nine the claim lists plus the policy-to-credential
attachment (`CfnPolicyPrincipalAttachment`). -/
theorem C1_counterexample :
    (synth "RuuviTagMonitoringStack" exEnv exProps).resources.length = 10 ∧
      (synth "RuuviTagMonitoringStack" exEnv exProps).resources.length ≠ 9 :=
  ⟨rfl, by decide⟩

/-- C1 (amended): for every configuration input and ambient context,
synthesis produces a graph of exactly ten resource declarations: one
device identity, one credential, one secret, one identity-to-credential
attachment, one access policy, one policy-to-credential attachment, one
routing rule, one error log sink, one execution role, and one
dashboard. -/
theorem C1_amended_ten_declarations (stackName : String) (env : StackEnv)
    (props : RuuviTagMonitoringStackProps) :
    (synth stackName env props).resources.length = 10 ∧
      ∀ k : ResourceKind, countKind (synth stackName env props) k = 1 := by
  refine ⟨rfl, ?_⟩
  intro k
  cases k <;> rfl

/-- C2: for every configuration input, the routing rule's filter
expression is exactly the string
`SELECT temperature,humidity FROM '{iotTopicPrefix}/{ruuviTagId}'`. -/
theorem C2_rule_sql (stackName : String) (env : StackEnv)
    (props : RuuviTagMonitoringStackProps) :
    (synth stackName env props).iotRule.topicRulePayload.sql =
      "SELECT temperature,humidity FROM \x27"
        ++ RuuviTagMonitoringStackProps.iotTopicPrefix props
        ++ "/" ++ props.ruuviTagId ++ "\x27" :=
  rfl

/-- C3: for every configuration input, the metric namespace of each of
the routing rule's two cloudwatch-metric actions and the metric
namespace of every metric on the dashboard's widget are the identical
string `{cloudWatchMetricNameSpace}/{ruuviTagId}`. -/
theorem C3_metric_namespace_agreement (stackName : String) (env : StackEnv)
    (props : RuuviTagMonitoringStackProps) :
    ((synth stackName env props).iotRule.topicRulePayload.actions.map
        (fun a => a.metricNamespace)) =
      [props.cloudWatchMetricNameSpace ++ "/" ++ props.ruuviTagId,
       props.cloudWatchMetricNameSpace ++ "/" ++ props.ruuviTagId] ∧
    (((synth stackName env props).dashboard.widgets.flatten.map
        (fun w => (w.left ++ w.right).map
          (fun m => m.metricNamespace))).flatten) =
      [props.cloudWatchMetricNameSpace ++ "/" ++ props.ruuviTagId] :=
  ⟨rfl, rfl⟩

/-- C4: for every configuration input (given ambient region/account
strings free of wildcards), the access policy's publish statement grants
exactly the resource ARN
`arn:aws:iot:{region}:{account}:topic/{iotTopicPrefix}/*`, and the part
of that ARN above the `{iotTopicPrefix}/` segment contains no
wildcard. -/
theorem C4_publish_arn_scoped (stackName : String) (env : StackEnv)
    (props : RuuviTagMonitoringStackProps)
    (hr : '*' ∉ env.region.data) (ha : '*' ∉ env.account.data) :
    ((synth stackName env props).iotThingPolicy.statements.map
        (fun st => (st.actions, st.resources))) =
      [(["iot:Publish"],
        [.lit ("arn:aws:iot:" ++ env.region ++ ":" ++ env.account
           ++ ":topic/" ++ RuuviTagMonitoringStackProps.iotTopicPrefix props
           ++ "/*")]),
       (["iot:Connect"],
        [.withRef ("arn:aws:iot:" ++ env.region ++ ":" ++ env.account
           ++ ":client/") props.thingName ""])] ∧
      '*' ∉ ("arn:aws:iot:" ++ env.region ++ ":" ++ env.account
        ++ ":topic/").data := by
  refine ⟨rfl, ?_⟩
  simp only [String.data_append, List.mem_append]
  push_neg
  refine ⟨⟨⟨⟨by decide, hr⟩, by decide⟩, ha⟩, by decide⟩

/-- C4 witness: the scoping property instantiated at the repository's
concrete deployment configuration. -/
theorem C4_publish_arn_scoped_witness :
    '*' ∉ exEnv.region.data ∧ '*' ∉ exEnv.account.data ∧
      (((synth "RuuviTagMonitoringStack" exEnv exProps).iotThingPolicy.statements.map
          (fun st => (st.actions, st.resources))) =
        [(["iot:Publish"],
          [.lit ("arn:aws:iot:" ++ exEnv.region ++ ":" ++ exEnv.account
             ++ ":topic/"
             ++ RuuviTagMonitoringStackProps.iotTopicPrefix exProps
             ++ "/*")]),
         (["iot:Connect"],
          [.withRef ("arn:aws:iot:" ++ exEnv.region ++ ":" ++ exEnv.account
             ++ ":client/") exProps.thingName ""])] ∧
        '*' ∉ ("arn:aws:iot:" ++ exEnv.region ++ ":" ++ exEnv.account
          ++ ":topic/").data) :=
  ⟨by decide, by decide,
   C4_publish_arn_scoped "RuuviTagMonitoringStack" exEnv exProps
     (by decide) (by decide)⟩

/-- C5 (counterexample): at the repository's concrete deployment
configuration, the credential is not an explicit prerequisite of the
identity attachment, and the routing rule carries no explicit
prerequisite edges at all; so the orderings the claim describes are not
expressed as explicit edges. -/
theorem C5_counterexample :
    "IotThingKeysAndCert" ∉
        (synth "RuuviTagMonitoringStack" exEnv
          exProps).iotThingPrincipalAttachment.dependsOn ∧
      (synth "RuuviTagMonitoringStack" exEnv exProps).iotRule.dependsOn =
        [] :=
  ⟨by decide, rfl⟩

/-- C5 (amended): for every configuration input, the only explicit
dependency edge in the synthesized graph is from the identity attachment
to the device identity; the credential-before-attachment and
sink-and-role-before-rule orderings are carried by implicit attribute
references (the attachment's principal references the credential, and
the routing rule references the error log sink and the execution role),
not by explicit edges. -/
theorem C5_amended_ordering (stackName : String) (env : StackEnv)
    (props : RuuviTagMonitoringStackProps) :
    (synth stackName env props).iotThingPrincipalAttachment.dependsOn =
        [(synth stackName env props).iotThing.logicalId] ∧
      (synth stackName env props).iotRule.dependsOn = [] ∧
      (synth stackName env props).iotThingKeysAndCert.logicalId ∈
        (synth stackName env props).iotThingPrincipalAttachment.principal.refs ∧
      (synth stackName env props).iotRuleErrorLog.logicalId ∈
        (synth stackName env props).iotRule.references ∧
      (synth stackName env props).iotRuleRole.logicalId ∈
        (synth stackName env props).iotRule.references := by
  refine ⟨rfl, rfl, ?_, ?_, ?_⟩ <;>
    simp [synth, CfnTopicRule.references, CfnValue.refs,
      LogGroup.logGroupName, Role.roleArn, AwsCustomResource.getResponseField]

/-- C6: for every configuration input, the identity-to-credential
attachment declaration lists the device identity as an explicit
prerequisite. -/
theorem C6_attachment_lists_identity (stackName : String) (env : StackEnv)
    (props : RuuviTagMonitoringStackProps) :
    (synth stackName env props).iotThing.logicalId ∈
      (synth stackName env props).iotThingPrincipalAttachment.dependsOn := by
  simp [synth]

/-- C7: the credential's physical resource id is captured from the
creation response's `certificateId` field, and the delete call passes
exactly that captured identifier (the physical-resource-id reference) as
its sole `certificateId` parameter. -/
theorem C7_credential_delete_keying (stackName : String) (env : StackEnv)
    (props : RuuviTagMonitoringStackProps) :
    (synth stackName env props).iotThingKeysAndCert.onCreate.physicalResourceId =
        some (.fromResponse "certificateId") ∧
      (synth stackName env props).iotThingKeysAndCert.onDelete.action =
        "DeleteCertificateCommand" ∧
      (synth stackName env props).iotThingKeysAndCert.onDelete.parameters =
        [("certificateId", .physicalResourceIdReference)] :=
  ⟨rfl, rfl, rfl⟩

/-- C8: synthesis is deterministic — identical configuration inputs and
identical ambient context yield structurally identical stacks. -/
theorem C8_synth_deterministic (n₁ n₂ : String) (e₁ e₂ : StackEnv)
    (p₁ p₂ : RuuviTagMonitoringStackProps)
    (hn : n₁ = n₂) (he : e₁ = e₂) (hp : p₁ = p₂) :
    synth n₁ e₁ p₁ = synth n₂ e₂ p₂ := by
  subst hn
  subst he
  subst hp
  rfl

/-- C8 witness: determinism instantiated at the repository's concrete
deployment configuration. -/
theorem C8_synth_deterministic_witness :
    "RuuviTagMonitoringStack" = "RuuviTagMonitoringStack" ∧
      exEnv = exEnv ∧ exProps = exProps ∧
      synth "RuuviTagMonitoringStack" exEnv exProps =
        synth "RuuviTagMonitoringStack" exEnv exProps :=
  ⟨rfl, rfl, rfl,
   C8_synth_deterministic "RuuviTagMonitoringStack" "RuuviTagMonitoringStack"
     exEnv exEnv exProps exProps rfl rfl rfl⟩

/-- C9: for every configuration input, the dashboard renders exactly one
metric series, named `Humidity`; the `Temperature` metric that the
routing rule also publishes is displayed by no dashboard widget. -/
theorem C9_dashboard_humidity_only (stackName : String) (env : StackEnv)
    (props : RuuviTagMonitoringStackProps) :
    (synth stackName env props).dashboard.metricNames = ["Humidity"] ∧
      "Temperature" ∉ (synth stackName env props).dashboard.metricNames ∧
      "Temperature" ∈
        ((synth stackName env props).iotRule.topicRulePayload.actions.map
          (fun a => a.metricName)) := by
  refine ⟨rfl, ?_, ?_⟩ <;> simp [Dashboard.metricNames, synth]

/-- C10: for every configuration input, the execution role's inline
metrics policy grants `cloudwatch:PutMetricData` on the all-resources
wildcard `*`, independent of every input. -/
theorem C10_role_metrics_wildcard (stackName : String) (env : StackEnv)
    (props : RuuviTagMonitoringStackProps) :
    (synth stackName env props).iotRuleRole.inlinePolicies =
      [("putMetricsPolicy",
        [{ actions := ["cloudwatch:PutMetricData"]
           resources := [.lit "*"] }])] :=
  rfl

end RuuviTag
